import Mathlib

/-!
# Verification of the FAKENEWSDETECTOR-FND backend orchestration

A shallow embedding of `backend/app.py`: the `/analyze-news` request handler,
its Content Assessor stage (free-text JSON extraction from the model response,
validation, fallback defaults), the claim-extraction helper, the fact-check
registry lookup helper, and the verdict-merge policy.

JSON values are modelled by the inductive `JVal` (numbers restricted to
integers, which covers every value the handler's arithmetic touches).
Python dicts are association lists with first-occurrence key positions and
unique keys when produced by JSON parsing; `dictSet` models `d[k] = v`
(replace in place, else append) and `dictGet` models lookup.
Python-level runtime errors that the handler's `try` block would catch
(`TypeError`, `AttributeError`, `KeyError`) are modelled with `Except String`;
an `Except.error` at top level becomes the 500 response of `app.py` line 233.

The two generative-model round trips and the registry HTTP call are external
services: their responses are inputs (the `Env` structure), and the embedding
records which outbound calls the handler performs.
-/

namespace FND

/-- JSON values as delivered by `json.loads` / sent by `jsonify`.
Numbers are restricted to integers (all numeric literals in `app.py` are
integers, and the spec declares every score an integer). -/
inductive JVal where
  | null : JVal
  | bool (b : Bool) : JVal
  | num (n : Int) : JVal
  | str (s : String) : JVal
  | arr (xs : List JVal) : JVal
  | obj (kvs : List (String × JVal)) : JVal

/-- Python dict lookup `d[k]` / `k in d` support: first entry with the key. -/
def dictGet (kvs : List (String × JVal)) (k : String) : Option JVal :=
  match kvs with
  | [] => none
  | (k', v) :: rest => if k' = k then some v else dictGet rest k

/-- Python dict assignment `d[k] = v`: replace the value at the key's
existing position, or append a new entry. -/
def dictSet (kvs : List (String × JVal)) (k : String) (v : JVal) :
    List (String × JVal) :=
  match kvs with
  | [] => [(k, v)]
  | (k', v') :: rest =>
    if k' = k then (k', v) :: rest else (k', v') :: dictSet rest k v

/-- Python `k in d` for a dict. -/
def dictHasKey (kvs : List (String × JVal)) (k : String) : Bool :=
  (dictGet kvs k).isSome

/-- Python `{**a, **b}`: start from `a`, then set each entry of `b` in order. -/
def dictMerge (a b : List (String × JVal)) : List (String × JVal) :=
  b.foldl (fun acc p => dictSet acc p.1 p.2) a

/-- Python truthiness of a JSON value (`if not news_text`, `if claim_review`,
`if data`, ...): `None`, `False`, `0`, `""`, `[]`, and the empty dict are
falsy; everything else is truthy. -/
def pyTruthy : JVal → Bool
  | .null => false
  | .bool b => b
  | .num n => n != 0
  | .str s => s != ""
  | .arr [] => false
  | .arr (_ :: _) => true
  | .obj [] => false
  | .obj (_ :: _) => true

/-- Index of the first element satisfying `p` (`str.find` on success). -/
def firstIdxAux (p : Char → Bool) : List Char → Option Nat
  | [] => none
  | c :: cs => if p c then some 0 else (firstIdxAux p cs).map (· + 1)

/-- Index of the last element satisfying `p` (`str.rfind` on success). -/
def lastIdxAux (p : Char → Bool) : List Char → Option Nat
  | [] => none
  | c :: cs =>
    match lastIdxAux p cs with
    | some n => some (n + 1)
    | none => if p c then some 0 else none

/-- Python `s.find(c)`: index of the first occurrence, `-1` if absent. -/
def pyFind (s : String) (c : Char) : Int :=
  match firstIdxAux (fun x => x = c) s.toList with
  | some n => (n : Int)
  | none => -1

/-- Python `s.rfind(c)`: index of the last occurrence, `-1` if absent. -/
def pyRFind (s : String) (c : Char) : Int :=
  match lastIdxAux (fun x => x = c) s.toList with
  | some n => (n : Int)
  | none => -1

/-- Python `s[i : j + 1]` for in-range indices `0 ≤ i ≤ j`. -/
def pySliceIncl (s : String) (i j : Int) : String :=
  String.mk ((s.toList.drop i.toNat).take (j.toNat + 1 - i.toNat))

/-- Substring test `needle in hay` on character lists. -/
def strIsPrefixOf : List Char → List Char → Bool
  | [], _ => true
  | _ :: _, [] => false
  | a :: as, b :: bs => a = b && strIsPrefixOf as bs

/-- Python `needle in hay` for strings: occurs as a contiguous substring. -/
def strContainsAux (needle : List Char) : List Char → Bool
  | [] => strIsPrefixOf needle []
  | c :: cs => strIsPrefixOf needle (c :: cs) || strContainsAux needle cs

/-- Python `needle in hay` on `String`. -/
def strContains (hay needle : String) : Bool :=
  strContainsAux needle.toList hay.toList

/-- Python `s.lower()` (ASCII letters; every verdict keyword is ASCII). -/
def strLower (s : String) : String :=
  String.mk (s.toList.map Char.toLower)

/-- Python `s.upper()` (ASCII letters). -/
def strUpper (s : String) : String :=
  String.mk (s.toList.map Char.toUpper)

/-- Python `s.strip()` (ASCII whitespace). -/
def pyStrip (s : String) : String :=
  let l := s.toList.dropWhile Char.isWhitespace
  String.mk ((l.reverse.dropWhile Char.isWhitespace).reverse)

/-- `app.py` lines 150-154: locate the first `[`-like brace `{` and the last
`}` in the model's response text; when both exist and the last `}` is strictly
after the first `{`, the inclusive slice between them is the candidate JSON
payload (`json_string`); otherwise there is no candidate. -/
def candidateJson (t : String) : Option String :=
  let json_start := pyFind t '{'
  let json_end := pyRFind t '}'
  if json_start ≠ -1 ∧ json_end ≠ -1 ∧ json_end > json_start then
    some (pySliceIncl t json_start json_end)
  else
    none

/-- The `details` sub-object shared by every fallback default
(lines 161-163, 175, 182, 191). -/
def defaultDetails : JVal :=
  .obj [("sourceReliability", .num 50), ("contentAnalysis", .num 50),
        ("factChecking", .num 50), ("linguisticAnalysis", .num 50)]

/-- A fallback `ai_result` (score 50, classification `uncertain`, all four
sub-scores 50) with the branch-specific explanation and disclaimer. -/
def mkDefaultResult (explanation disclaimer : String) : JVal :=
  .obj [("credibilityScore", .num 50), ("classification", .str "uncertain"),
        ("explanation", .str explanation), ("details", defaultDetails),
        ("disclaimer", .str disclaimer)]

/-- Line 160: explanation used when no brace pair is found. -/
def msgCouldNotParse : String :=
  "AI content analysis failed: Could not parse Gemini's response (not valid JSON or incomplete)."

/-- Line 181: explanation of the `elif not ai_result` branch. -/
def msgNoJsonFound : String :=
  "AI content analysis failed: No JSON string found in Gemini's response."

/-- Line 174: explanation used when required keys are missing. -/
def msgMissingKeys : String :=
  "AI content analysis returned an unexpected structure (missing keys)."

/-- Line 190: explanation used when the candidate JSON fails to parse. -/
def msgMalformed : String :=
  "AI content analysis returned malformed JSON."

/-- Disclaimer of the failed-analysis defaults (lines 164, 183). -/
def discFailed : String :=
  "AI content analysis failed. For full fact-checking, independent verification from multiple trusted sources is recommended."

/-- Disclaimer of the missing-keys default (line 176). -/
def discMissingKeys : String :=
  "AI content analysis returned an unexpected structure. For full fact-checking, independent verification from multiple trusted sources is recommended."

/-- Disclaimer of the malformed-JSON default (line 192). -/
def discMalformed : String :=
  "AI content analysis returned malformed JSON. For full fact-checking, independent verification from multiple trusted sources is recommended."

/-- Line 170: the four required top-level keys. -/
def requiredKeys : List String :=
  ["credibilityScore", "classification", "explanation", "details"]

/-- Line 170: `all(k in ai_result for k in [...])`.  `k in x` is key
membership for a dict, element membership for a list, substring search for a
string, and a `TypeError` otherwise (which the surrounding
`except json.JSONDecodeError` does not catch). -/
def pyHasAllKeys (v : JVal) : Except String Bool :=
  match v with
  | .obj kvs => .ok (requiredKeys.all (fun k => dictHasKey kvs k))
  | .arr xs =>
    .ok (requiredKeys.all (fun k =>
      xs.any (fun x => match x with | .str s => s = k | _ => false)))
  | .str s => .ok (requiredKeys.all (fun k => strContains s k))
  | _ => .error "TypeError: argument of type is not iterable"

/-- `app.py` lines 105-193 (the Content Assessor): starting from
`ai_result = {}` and `json_string = ""`, locate the candidate JSON substring
(else install the could-not-parse default), then inside the inner `try`:
if `json_string` is non-empty, parse it (`json.JSONDecodeError` yields the
malformed-JSON default) and replace the result by the missing-keys default
unless all four required keys are present; otherwise the dead
`elif not ai_result` branch would install the no-JSON-found default.
An uncaught exception (the `TypeError` from the key test) is `Except.error`. -/
def contentAssessor (jloads : String → Option JVal) (responseText : String) :
    Except String JVal :=
  let json_string := (candidateJson responseText).getD ""
  let ai_result : JVal :=
    if (candidateJson responseText).isSome then .obj []
    else mkDefaultResult msgCouldNotParse discFailed
  if json_string ≠ "" then
    match jloads json_string with
    | some v =>
      match pyHasAllKeys v with
      | .error e => .error e
      | .ok true => .ok v
      | .ok false => .ok (mkDefaultResult msgMissingKeys discMissingKeys)
    | none => .ok (mkDefaultResult msgMalformed discMalformed)
  else if pyTruthy ai_result = false then
    .ok (mkDefaultResult msgNoJsonFound discFailed)
  else
    .ok ai_result

/-- `app.py` lines 28-50, `extract_claim_with_gemini`: the input is the text
of the extraction model's first candidate part (`none` when the call raised or
the response had no usable candidate, both of which `return None`).  The text
is stripped; the literal sentinel is turned into `None`. -/
def extract_claim_with_gemini (modelText : Option String) : Option String :=
  match modelText with
  | none => none
  | some t =>
    let claim := pyStrip t
    if claim = "No specific claim identified" then none else some claim

/-- The outcome of the registry HTTP round trip: the request raised
(`requests.exceptions.RequestException`), or it delivered a JSON body. -/
inductive RegistryOutcome where
  | netFailure : RegistryOutcome
  | response (data : JVal) : RegistryOutcome

/-- The dict returned by `query_fact_check_api` on success (lines 81-85).
`textualRating` and `url` are copied verbatim (so they may be `null` when the
review entry lacks them); `publisher` defaults to `"Unknown"`. -/
structure FactCheck where
  verdict : JVal
  url : JVal
  publisher : JVal

/-- `app.py` lines 65-93, the body of `query_fact_check_api`'s `try`:
navigate `data['claims'][0]['claimReview'][0]`, reading `textualRating`,
`url` and `publisher.name` with `.get`.  Both `except` clauses return `None`,
and so do the no-claims / no-review paths, so every shape other than the
happy one collapses to `none` (a Python `TypeError`/`KeyError`/
`AttributeError` on an off-shape value is caught by the catch-all). -/
def factCheckFromData (data : JVal) : Option FactCheck :=
  match data with
  | .obj kvs =>
    match dictGet kvs "claims" with
    | some (.arr (firstClaim :: _)) =>
      match firstClaim with
      | .obj ckvs =>
        match (dictGet ckvs "claimReview").getD (.arr []) with
        | .arr (review :: _) =>
          match review with
          | .obj rkvs =>
            match (dictGet rkvs "publisher").getD (.obj []) with
            | .obj pkvs =>
              some { verdict := (dictGet rkvs "textualRating").getD .null,
                     url := (dictGet rkvs "url").getD .null,
                     publisher := (dictGet pkvs "name").getD (.str "Unknown") }
            | _ => none
          | _ => none
        | _ => none
      | _ => none
    | _ => none
  | _ => none

/-- `app.py` lines 53-93, `query_fact_check_api`: with no API key configured
the function returns `None` before any HTTP call (line 54-56); otherwise the
call either raises (→ `None`) or its JSON body is processed. -/
def query_fact_check_api (keySet : Bool) (resp : RegistryOutcome) :
    Option FactCheck :=
  if keySet then
    match resp with
    | .netFailure => none
    | .response data => factCheckFromData data
  else
    none

/-- Line 206: `"false" in verdict_lower or "debunked" in verdict_lower or
"misinformation" in verdict_lower`. -/
def hasFalseKeyword (verdictLower : String) : Bool :=
  strContains verdictLower "false" || strContains verdictLower "debunked" ||
    strContains verdictLower "misinformation"

/-- Line 211: `"true" in verdict_lower or "verified" in verdict_lower or
"accurate" in verdict_lower`. -/
def hasTrueKeyword (verdictLower : String) : Bool :=
  strContains verdictLower "true" || strContains verdictLower "verified" ||
    strContains verdictLower "accurate"

/-- Python `d[k]` on a JSON value: `KeyError` when absent, `TypeError` on a
non-dict (only ever reached on dicts or values that defeated the key test). -/
def pyGetItem (v : JVal) (k : String) : Except String JVal :=
  match v with
  | .obj kvs =>
    match dictGet kvs k with
    | some x => .ok x
    | none => .error "KeyError"
  | _ => .error "TypeError: item access on non-dict"

/-- Python `d[k] = x` on a JSON value. -/
def pySetItem (v : JVal) (k : String) (x : JVal) : Except String JVal :=
  match v with
  | .obj kvs => .ok (.obj (dictSet kvs k x))
  | _ => .error "TypeError: item assignment on non-dict"

/-- Python `min(x, n)` for an `int` literal `n`: numbers compare by value,
`bool` counts as `0`/`1` (and is returned unchanged when it is the minimum,
ties included, since it is the first argument); anything else raises
`TypeError`. -/
def pyMin (x : JVal) (n : Int) : Except String JVal :=
  match x with
  | .num m => .ok (.num (min m n))
  | .bool b => .ok (if (if b then (1 : Int) else 0) ≤ n then .bool b else .num n)
  | _ => .error "TypeError: min on non-number"

/-- Python `max(x, n)` for an `int` literal `n` (ties keep the first
argument). -/
def pyMax (x : JVal) (n : Int) : Except String JVal :=
  match x with
  | .num m => .ok (.num (max m n))
  | .bool b => .ok (if (if b then (1 : Int) else 0) ≥ n then .bool b else .num n)
  | _ => .error "TypeError: max on non-number"

/-- Python `prefix + x` where the left operand is a `str`: `TypeError` unless
`x` is a `str` too. -/
def pyStrConcat (pre : String) (x : JVal) : Except String JVal :=
  match x with
  | .str s => .ok (.str (pre ++ s))
  | _ => .error "TypeError: can only concatenate str to str"

/-- Lines 206-210, the false-keyword branch of the merge policy: force
`classification = "fake"`, clamp the score to `min(current, 20)`, prepend the
confirming sentence to the explanation, set the display string. -/
def mergeFalseBranch (ai : JVal) (verdict : String) : Except String JVal :=
  match pySetItem ai "classification" (.str "fake") with
  | .error e => .error e
  | .ok a1 =>
    match pyGetItem a1 "credibilityScore" with
    | .error e => .error e
    | .ok cs =>
      match pyMin cs 20 with
      | .error e => .error e
      | .ok cs2 =>
        match pySetItem a1 "credibilityScore" cs2 with
        | .error e => .error e
        | .ok a2 =>
          match pyGetItem a2 "explanation" with
          | .error e => .error e
          | .ok ex =>
            match pyStrConcat
                ("External fact-check confirms this claim is " ++ verdict ++ ". ") ex with
            | .error e => .error e
            | .ok ex2 =>
              match pySetItem a2 "explanation" ex2 with
              | .error e => .error e
              | .ok a3 =>
                pySetItem a3 "classificationDisplay"
                  (.str ("FACT-CHECKED: " ++ strUpper verdict))

/-- Lines 211-215, the true-keyword branch: force `classification = "real"`,
clamp the score to `max(current, 80)`, same explanation and display pattern. -/
def mergeTrueBranch (ai : JVal) (verdict : String) : Except String JVal :=
  match pySetItem ai "classification" (.str "real") with
  | .error e => .error e
  | .ok a1 =>
    match pyGetItem a1 "credibilityScore" with
    | .error e => .error e
    | .ok cs =>
      match pyMax cs 80 with
      | .error e => .error e
      | .ok cs2 =>
        match pySetItem a1 "credibilityScore" cs2 with
        | .error e => .error e
        | .ok a2 =>
          match pyGetItem a2 "explanation" with
          | .error e => .error e
          | .ok ex =>
            match pyStrConcat
                ("External fact-check confirms this claim is " ++ verdict ++ ". ") ex with
            | .error e => .error e
            | .ok ex2 =>
              match pySetItem a2 "explanation" ex2 with
              | .error e => .error e
              | .ok a3 =>
                pySetItem a3 "classificationDisplay"
                  (.str ("FACT-CHECKED: " ++ strUpper verdict))

/-- Lines 216-219, the residual branch: force `classification = "uncertain"`,
leave the score alone, prepend the verdict sentence, set the display string. -/
def mergeOtherBranch (ai : JVal) (verdict : String) : Except String JVal :=
  match pySetItem ai "classification" (.str "uncertain") with
  | .error e => .error e
  | .ok a1 =>
    match pyGetItem a1 "explanation" with
    | .error e => .error e
    | .ok ex =>
      match pyStrConcat
          ("External fact-check verdict: " ++ verdict ++ ". ") ex with
      | .error e => .error e
      | .ok ex2 =>
        match pySetItem a1 "explanation" ex2 with
        | .error e => .error e
        | .ok a2 =>
          pySetItem a2 "classificationDisplay"
            (.str ("FACT-CHECKED: " ++ strUpper verdict))

/-- Lines 205-219, the verdict-merge policy: `fact_check_data['verdict'].lower()`
raises `AttributeError` unless the verdict is a string, then the three
keyword branches are tried in order. -/
def mergeVerdict (ai : JVal) (fc : FactCheck) : Except String JVal :=
  match fc.verdict with
  | .str verdict =>
    let verdict_lower := strLower verdict
    if hasFalseKeyword verdict_lower then mergeFalseBranch ai verdict
    else if hasTrueKeyword verdict_lower then mergeTrueBranch ai verdict
    else mergeOtherBranch ai verdict
  | _ => .error "AttributeError: NoneType object has no attribute lower"

/-- Line 226: `{**ai_result, **...}` requires `ai_result` to be a mapping. -/
def pySplat (v : JVal) : Except String (List (String × JVal)) :=
  match v with
  | .obj kvs => .ok kvs
  | _ => .error "TypeError: argument must be a mapping"

/-- The environment of one request: the deterministic stand-ins for the two
generative-model round trips and the registry call, plus the parameters of
the process.  `jloads` abstracts `json.loads` (`none` = `JSONDecodeError`);
`analysisText` is the analysis response's `.text` (absent when the response
object has no such attribute, giving `""` at line 147); `claimText` feeds
`extract_claim_with_gemini`; `factCheckKey` is the truthiness of
`GOOGLE_FACT_CHECK_API_KEY`; `registryResp` is the registry round trip. -/
structure Env where
  jloads : String → Option JVal
  analysisText : Option String
  claimText : Option String
  factCheckKey : Bool
  registryResp : RegistryOutcome

/-- The observable outcome of one request: HTTP status and JSON body, plus
which outbound calls were performed (the analysis model call of line 146, the
claim-extraction model call of line 38, the registry HTTP GET of line 67). -/
structure HandlerResult where
  status : Nat
  body : JVal
  modelCalled : Bool
  claimModelCalled : Bool
  registryCalled : Bool

/-- Line 233: the 500 response of the top-level `except`. -/
def mk500 (e : String) (claimCalled registryCalled : Bool) : HandlerResult :=
  { status := 500,
    body := .obj [("error",
      .str ("An internal server error occurred during AI analysis: " ++ e))],
    modelCalled := true, claimModelCalled := claimCalled,
    registryCalled := registryCalled }

/-- Lines 226-229 when no fact-check result exists:
`final_result = {**ai_result, **{}}` and the 200 response. -/
def finishNoFactCheck (ai : JVal) (registryCalled : Bool) : HandlerResult :=
  match pySplat ai with
  | .error e => mk500 e true registryCalled
  | .ok base =>
    { status := 200, body := .obj base, modelCalled := true,
      claimModelCalled := true, registryCalled := registryCalled }

/-- `app.py` lines 109-233, the `try` block of the handler: Content Assessor,
claim extraction (`if extracted_claim:` is string truthiness), conditional
registry lookup, verdict merge, response assembly.  The registry HTTP GET
runs exactly when a truthy claim was extracted and the key is configured. -/
def runPipeline (env : Env) : HandlerResult :=
  let response_text := env.analysisText.getD ""
  match contentAssessor env.jloads response_text with
  | .error e => mk500 e false false
  | .ok ai =>
    let claimTruthy :=
      match extract_claim_with_gemini env.claimText with
      | some c => c != ""
      | none => false
    if claimTruthy then
      let registryCalled := env.factCheckKey
      match query_fact_check_api env.factCheckKey env.registryResp with
      | none => finishNoFactCheck ai registryCalled
      | some fc =>
        let fact_check_result : List (String × JVal) :=
          [("factCheckVerdict", fc.verdict), ("factCheckUrl", fc.url),
           ("factCheckPublisher", fc.publisher)]
        match mergeVerdict ai fc with
        | .error e => mk500 e true registryCalled
        | .ok ai2 =>
          match pySplat ai2 with
          | .error e => mk500 e true registryCalled
          | .ok base =>
            { status := 200, body := .obj (dictMerge base fact_check_result),
              modelCalled := true, claimModelCalled := true,
              registryCalled := registryCalled }
    else
      finishNoFactCheck ai false

/-- Line 103: the exact 400 error response. -/
def badRequest400 : HandlerResult :=
  { status := 400,
    body := .obj [("error", .str "News content is required.")],
    modelCalled := false, claimModelCalled := false, registryCalled := false }

/-- `app.py` lines 96-233, `analyze_news_endpoint`, for a request whose JSON
body is the object `body`: `data.get('content')` followed by the truthiness
test `if not news_text` (line 102) decides between the 400 rejection and the
pipeline. -/
def analyze_news_endpoint (env : Env) (body : List (String × JVal)) :
    HandlerResult :=
  let news_text := (dictGet body "content").getD .null
  if pyTruthy news_text then runPipeline env else badRequest400

/-!
## A concrete JSON parser

A small executable recursive-descent parser for the JSON fragment exercised
here (objects with string keys, arrays, strings with the common escapes,
integers, `null`, `true`, `false`; strict about trailing commas and trailing
input, last duplicate key wins — as `json.loads` is).  The theorems below
quantify over the `json.loads` stand-in; this parser instantiates it in
concrete witnesses.
-/

/-- JSON insignificant whitespace. -/
def skipWs (cs : List Char) : List Char :=
  cs.dropWhile (fun c => c = ' ' || c = '\n' || c = '\t' || c = '\r')

/-- Body of a JSON string literal after the opening quote; `acc` holds the
characters read so far, reversed. -/
def parseStrAux (acc : List Char) : List Char → Option (String × List Char)
  | [] => none
  | '"' :: rest => some (String.mk acc.reverse, rest)
  | '\\' :: '"' :: rest => parseStrAux ('"' :: acc) rest
  | '\\' :: '\\' :: rest => parseStrAux ('\\' :: acc) rest
  | '\\' :: 'n' :: rest => parseStrAux ('\n' :: acc) rest
  | '\\' :: 't' :: rest => parseStrAux ('\t' :: acc) rest
  | c :: rest => parseStrAux (c :: acc) rest

/-- Consume a maximal run of decimal digits, accumulating their value. -/
def takeDigits (acc : Nat) : List Char → Nat × List Char
  | [] => (acc, [])
  | c :: rest =>
    if c.isDigit then takeDigits (acc * 10 + (c.toNat - 48)) rest
    else (acc, c :: rest)

mutual

/-- Parse one JSON value. -/
def parseVal : Nat → List Char → Option (JVal × List Char)
  | 0, _ => none
  | Nat.succ fuel, cs =>
    match skipWs cs with
    | '{' :: rest =>
      (match skipWs rest with
       | '}' :: rest2 => some (.obj [], rest2)
       | _ => parseMembers fuel rest [])
    | '[' :: rest =>
      (match skipWs rest with
       | ']' :: rest2 => some (.arr [], rest2)
       | _ => parseElems fuel rest [])
    | '"' :: rest => (parseStrAux [] rest).map (fun p => (.str p.1, p.2))
    | 'n' :: 'u' :: 'l' :: 'l' :: rest => some (.null, rest)
    | 't' :: 'r' :: 'u' :: 'e' :: rest => some (.bool true, rest)
    | 'f' :: 'a' :: 'l' :: 's' :: 'e' :: rest => some (.bool false, rest)
    | '-' :: c :: rest =>
      if c.isDigit then
        let p := takeDigits (c.toNat - 48) rest
        some (.num (-(p.1 : Int)), p.2)
      else none
    | c :: rest =>
      if c.isDigit then
        let p := takeDigits (c.toNat - 48) rest
        some (.num (p.1 : Int), p.2)
      else none
    | [] => none

/-- Parse the members of an object after its `{` (at least one member).
Duplicate keys follow `json.loads`: the later value wins, the position of the
first occurrence is kept. -/
def parseMembers (fuel : Nat) (cs : List Char)
    (acc : List (String × JVal)) : Option (JVal × List Char) :=
  match fuel with
  | 0 => none
  | Nat.succ fuel =>
    match skipWs cs with
    | '"' :: rest =>
      match parseStrAux [] rest with
      | none => none
      | some (k, r1) =>
        match skipWs r1 with
        | ':' :: r2 =>
          match parseVal fuel r2 with
          | none => none
          | some (v, r3) =>
            let acc2 := dictSet acc k v
            match skipWs r3 with
            | ',' :: r4 => parseMembers fuel r4 acc2
            | '}' :: r4 => some (.obj acc2, r4)
            | _ => none
        | _ => none
    | _ => none

/-- Parse the elements of an array after its `[` (at least one element). -/
def parseElems (fuel : Nat) (cs : List Char)
    (acc : List JVal) : Option (JVal × List Char) :=
  match fuel with
  | 0 => none
  | Nat.succ fuel =>
    match parseVal fuel cs with
    | none => none
    | some (v, r1) =>
      match skipWs r1 with
      | ',' :: r2 => parseElems fuel r2 (acc ++ [v])
      | ']' :: r2 => some (.arr (acc ++ [v]), r2)
      | _ => none

end

/-- The `json.loads` stand-in: parse one value and require only whitespace
after it (`json.loads` raises `JSONDecodeError` on trailing data). -/
def jsonParse (s : String) : Option JVal :=
  match parseVal (s.length + 1) s.toList with
  | some (v, rest) => if skipWs rest = [] then some v else none
  | none => none

/-!
## Supporting lemmas
-/

theorem dictGet_dictSet_self (kvs : List (String × JVal)) (k : String)
    (v : JVal) : dictGet (dictSet kvs k v) k = some v := by
  induction kvs with
  | nil => simp [dictGet, dictSet]
  | cons p rest ih =>
    obtain ⟨k', v'⟩ := p
    by_cases h : k' = k
    · simp [dictGet, dictSet, h]
    · simp [dictGet, dictSet, h, ih]

theorem dictGet_dictSet_ne (kvs : List (String × JVal)) (k : String)
    (v : JVal) (k' : String) (h : k' ≠ k) :
    dictGet (dictSet kvs k v) k' = dictGet kvs k' := by
  have hne : k ≠ k' := fun hk => h hk.symm
  induction kvs with
  | nil => simp [dictGet, dictSet, hne]
  | cons p rest ih =>
    obtain ⟨k0, v0⟩ := p
    by_cases hk : k0 = k
    · subst hk
      simp [dictGet, dictSet, hne]
    · simp only [dictSet, if_neg hk]
      by_cases hk' : k0 = k'
      · simp [dictGet, hk']
      · simp [dictGet, hk', ih]

theorem firstIdxAux_lt_length (p : Char → Bool) (l : List Char) (n : Nat)
    (h : firstIdxAux p l = some n) : n < l.length := by
  induction l generalizing n with
  | nil => simp [firstIdxAux] at h
  | cons c cs ih =>
    by_cases hc : p c
    · simp [firstIdxAux, hc] at h
      simp [List.length_cons]
      omega
    · simp [firstIdxAux, hc] at h
      obtain ⟨m, hm, hmn⟩ := h
      have := ih m hm
      simp [List.length]
      omega

theorem lastIdxAux_lt_length (p : Char → Bool) (l : List Char) (n : Nat)
    (h : lastIdxAux p l = some n) : n < l.length := by
  induction l generalizing n with
  | nil => simp [lastIdxAux] at h
  | cons c cs ih =>
    rcases hcs : lastIdxAux p cs with _ | m
    · simp [lastIdxAux, hcs] at h
      rcases h with ⟨hpc, hn⟩
      simp [← hn]
    · simp [lastIdxAux, hcs] at h
      have := ih m hcs
      simp [List.length]
      omega

theorem firstIdxAux_eq_none_of (p : Char → Bool) (l : List Char)
    (h : ∀ c ∈ l, p c = false) : firstIdxAux p l = none := by
  induction l with
  | nil => rfl
  | cons c cs ih =>
    have hc := h c (by simp)
    simp [firstIdxAux, hc]
    exact ih (fun x hx => h x (by simp [hx]))

theorem lastIdxAux_eq_none_of (p : Char → Bool) (l : List Char)
    (h : ∀ c ∈ l, p c = false) : lastIdxAux p l = none := by
  induction l with
  | nil => rfl
  | cons c cs ih =>
    have hcs := ih (fun x hx => h x (by simp [hx]))
    simp [lastIdxAux, hcs, h c (by simp)]

theorem firstIdxAux_eq_some_of (p : Char → Bool) (l : List Char) (i : Nat)
    (hi : ∃ c, l.get? i = some c ∧ p c = true)
    (hmin : ∀ k, k < i → ∀ c, l.get? k = some c → p c = false) :
    firstIdxAux p l = some i := by
  induction l generalizing i with
  | nil => obtain ⟨c, hc, _⟩ := hi; simp at hc
  | cons a as ih =>
    cases i with
    | zero =>
      obtain ⟨c, hc, hpc⟩ := hi
      simp at hc
      subst hc
      simp [firstIdxAux, hpc]
    | succ i' =>
      have ha : p a = false := hmin 0 (Nat.succ_pos i') a rfl
      have hi' : ∃ c, as.get? i' = some c ∧ p c = true := by
        obtain ⟨c, hc, hpc⟩ := hi
        exact ⟨c, hc, hpc⟩
      have hmin' : ∀ k, k < i' → ∀ c, as.get? k = some c → p c = false :=
        fun k hk c hc => hmin (k + 1) (by omega) c hc
      simp [firstIdxAux, ha, ih i' hi' hmin']

theorem lastIdxAux_eq_some_of (p : Char → Bool) (l : List Char) (j : Nat)
    (hj : ∃ c, l.get? j = some c ∧ p c = true)
    (hmax : ∀ k, j < k → ∀ c, l.get? k = some c → p c = false) :
    lastIdxAux p l = some j := by
  induction l generalizing j with
  | nil => obtain ⟨c, hc, _⟩ := hj; simp at hc
  | cons a as ih =>
    cases j with
    | zero =>
      obtain ⟨c, hc, hpc⟩ := hj
      simp at hc
      subst hc
      have hnone : lastIdxAux p as = none := by
        apply lastIdxAux_eq_none_of
        intro x hx
        obtain ⟨k, hk⟩ := List.get_of_mem hx
        have hget : as.get? k = some x := by
          rw [List.get?_eq_get k.isLt]
          exact congrArg some hk
        exact hmax (k + 1) (Nat.succ_pos k) x hget
      simp [lastIdxAux, hnone, hpc]
    | succ j' =>
      have hj' : ∃ c, as.get? j' = some c ∧ p c = true := hj
      have hmax' : ∀ k, j' < k → ∀ c, as.get? k = some c → p c = false :=
        fun k hk c hc => hmax (k + 1) (by omega) c hc
      simp [lastIdxAux, ih j' hj' hmax']

theorem candidateJson_of_idx (t : String) (i j : Nat) (hij : i < j)
    (hf : firstIdxAux (fun c => c = '{') t.toList = some i)
    (hl : lastIdxAux (fun c => c = '}') t.toList = some j) :
    candidateJson t = some (String.mk ((t.toList.drop i).take (j + 1 - i))) := by
  simp only [candidateJson, pyFind, pyRFind, hf, hl]
  rw [if_pos ⟨by omega, by omega, by exact_mod_cast hij⟩]
  simp only [pySliceIncl, Int.toNat_natCast]

theorem candidateJson_none_no_open (t : String) (h : '{' ∉ t.toList) :
    candidateJson t = none := by
  have hf : firstIdxAux (fun c => c = '{') t.toList = none := by
    apply firstIdxAux_eq_none_of
    intro c hc
    simp only [decide_eq_false_iff_not]
    intro hceq
    exact h (hceq ▸ hc)
  simp only [candidateJson, pyFind, hf]
  rw [if_neg]
  rintro ⟨h1, -, -⟩
  exact h1 rfl

theorem candidateJson_none_no_close (t : String) (h : '}' ∉ t.toList) :
    candidateJson t = none := by
  have hl : lastIdxAux (fun c => c = '}') t.toList = none := by
    apply lastIdxAux_eq_none_of
    intro c hc
    simp only [decide_eq_false_iff_not]
    intro hceq
    exact h (hceq ▸ hc)
  simp only [candidateJson, pyRFind, hl]
  rw [if_neg]
  rintro ⟨-, h2, -⟩
  exact h2 rfl

theorem candidateJson_none_of_le (t : String) (i j : Nat)
    (hf : firstIdxAux (fun c => c = '{') t.toList = some i)
    (hl : lastIdxAux (fun c => c = '}') t.toList = some j)
    (hle : j ≤ i) : candidateJson t = none := by
  simp only [candidateJson, pyFind, pyRFind, hf, hl]
  rw [if_neg]
  rintro ⟨-, -, h3⟩
  have : (j : Int) > (i : Int) := h3
  omega

theorem candidateJson_eq_some_elim (t : String) (s : String)
    (h : candidateJson t = some s) :
    ∃ i j, firstIdxAux (fun c => c = '{') t.toList = some i ∧
      lastIdxAux (fun c => c = '}') t.toList = some j ∧ i < j ∧
      s = String.mk ((t.toList.drop i).take (j + 1 - i)) := by
  simp only [candidateJson, pyFind, pyRFind] at h
  rcases hf : firstIdxAux (fun c => c = '{') t.toList with _ | i <;>
    simp only [hf] at h
  · rw [if_neg (by rintro ⟨h1, -, -⟩; exact h1 rfl)] at h
    exact absurd h (by simp)
  · rcases hl : lastIdxAux (fun c => c = '}') t.toList with _ | j <;>
      simp only [hl] at h
    · rw [if_neg (by rintro ⟨-, h2, -⟩; exact h2 rfl)] at h
      exact absurd h (by simp)
    · by_cases hij : (i : Int) < (j : Int)
      · rw [if_pos ⟨by omega, by omega, hij⟩] at h
        refine ⟨i, j, rfl, rfl, by exact_mod_cast hij, ?_⟩
        simp only [pySliceIncl, Int.toNat_natCast] at h
        exact (Option.some_inj.mp h).symm
      · rw [if_neg (by rintro ⟨-, -, h3⟩; exact hij h3)] at h
        exact absurd h (by simp)

theorem candidateJson_some_ne_empty (t s : String)
    (h : candidateJson t = some s) : s ≠ "" := by
  obtain ⟨i, j, hf, hl, hij, hs⟩ := candidateJson_eq_some_elim t s h
  have hi := firstIdxAux_lt_length _ _ _ hf
  subst hs
  intro hempty
  have hnil : (t.toList.drop i).take (j + 1 - i) = ([] : List Char) :=
    congrArg String.data hempty
  have hlen := congrArg List.length hnil
  simp [List.length_take, List.length_drop] at hlen
  have hlen2 : t.toList.length = t.length := rfl
  omega

/-- When a candidate substring exists, the assessor parses it: a parse
failure yields the malformed-JSON default (lines 186-193). -/
theorem contentAssessor_parse_fail (jl : String → Option JVal) (t s : String)
    (hc : candidateJson t = some s) (hp : jl s = none) :
    contentAssessor jl t = .ok (mkDefaultResult msgMalformed discMalformed) := by
  have hne := candidateJson_some_ne_empty t s hc
  simp [contentAssessor, hc, hne, hp]

/-- When the candidate parses to a dict missing a required key, the result is
replaced wholesale by the missing-keys default (lines 170-177). -/
theorem contentAssessor_missing_keys (jl : String → Option JVal)
    (t s : String) (kvs : List (String × JVal))
    (hc : candidateJson t = some s) (hp : jl s = some (JVal.obj kvs))
    (hk : requiredKeys.all (fun k => dictHasKey kvs k) = false) :
    contentAssessor jl t =
      .ok (mkDefaultResult msgMissingKeys discMissingKeys) := by
  have hne := candidateJson_some_ne_empty t s hc
  simp [contentAssessor, hc, hne, hp, pyHasAllKeys, hk]

/-- When the candidate parses to a dict with all four required keys, the
parsed object is returned as-is (lines 167-170). -/
theorem contentAssessor_passthrough (jl : String → Option JVal)
    (t s : String) (kvs : List (String × JVal))
    (hc : candidateJson t = some s) (hp : jl s = some (JVal.obj kvs))
    (hk : requiredKeys.all (fun k => dictHasKey kvs k) = true) :
    contentAssessor jl t = .ok (JVal.obj kvs) := by
  have hne := candidateJson_some_ne_empty t s hc
  simp [contentAssessor, hc, hne, hp, pyHasAllKeys, hk]

/-- When no candidate substring exists, the assessor returns the
could-not-parse default installed at lines 156-165 (the `elif not ai_result`
branch of lines 178-184 is not reached, since `ai_result` is non-empty). -/
theorem contentAssessor_no_candidate (jl : String → Option JVal) (t : String)
    (hc : candidateJson t = none) :
    contentAssessor jl t =
      .ok (mkDefaultResult msgCouldNotParse discFailed) := by
  simp [contentAssessor, hc, mkDefaultResult, pyTruthy]

/-!
## C1 and C10: the request-rejection gate
-/

/-- A benign concrete environment used by witnesses: the model's analysis
response has no braces, no claim is extracted, no registry key. -/
def envA : Env :=
  { jloads := jsonParse, analysisText := some "hello", claimText := none,
    factCheckKey := false, registryResp := .netFailure }

/-- C1: a POST request whose JSON body has no `content` entry, or whose
`content` is the empty string, is answered with status 400 and exactly the
body `error: News content is required.`, and none of the three outbound calls
(analysis model, extraction model, registry) is made. -/
theorem C1_empty_or_missing_content_rejected (env : Env)
    (body : List (String × JVal))
    (h : dictGet body "content" = none ∨
         dictGet body "content" = some (JVal.str "")) :
    analyze_news_endpoint env body = badRequest400 ∧
    badRequest400.status = 400 ∧
    badRequest400.body =
      JVal.obj [("error", JVal.str "News content is required.")] ∧
    badRequest400.modelCalled = false ∧
    badRequest400.claimModelCalled = false ∧
    badRequest400.registryCalled = false := by
  refine ⟨?_, rfl, rfl, rfl, rfl, rfl⟩
  unfold analyze_news_endpoint
  rcases h with h | h <;> rw [h] <;> rfl

/-- Witness for C1 at a concrete request with no `content` field. -/
theorem C1_empty_or_missing_content_rejected_witness :
    dictGet [("url", JVal.str "u")] "content" = none ∧
    analyze_news_endpoint envA [("url", JVal.str "u")] = badRequest400 :=
  ⟨rfl, (C1_empty_or_missing_content_rejected envA [("url", JVal.str "u")]
    (Or.inl rfl)).1⟩

/-- Computation of the false-keyword merge branch on a well-typed result
dict: the exact chain of dict updates performed by lines 207-210. -/
theorem mergeFalseBranch_spec (kvs : List (String × JVal)) (v : String)
    (n : Int) (e : String)
    (hcs : dictGet kvs "credibilityScore" = some (JVal.num n))
    (hex : dictGet kvs "explanation" = some (JVal.str e)) :
    mergeFalseBranch (JVal.obj kvs) v = .ok (.obj
      (dictSet (dictSet (dictSet (dictSet kvs
        "classification" (.str "fake"))
        "credibilityScore" (.num (min n 20)))
        "explanation" (.str ("External fact-check confirms this claim is "
          ++ v ++ ". " ++ e)))
        "classificationDisplay" (.str ("FACT-CHECKED: " ++ strUpper v)))) := by
  have h1 : dictGet (dictSet kvs "classification" (JVal.str "fake"))
      "credibilityScore" = some (JVal.num n) := by
    rw [dictGet_dictSet_ne _ _ _ _ (by decide)]; exact hcs
  have h2 : dictGet (dictSet (dictSet kvs "classification" (JVal.str "fake"))
      "credibilityScore" (JVal.num (min n 20))) "explanation" =
      some (JVal.str e) := by
    rw [dictGet_dictSet_ne _ _ _ _ (by decide),
        dictGet_dictSet_ne _ _ _ _ (by decide)]
    exact hex
  simp [mergeFalseBranch, pySetItem, pyGetItem, pyMin, pyStrConcat, h1, h2]

/-- Computation of the true-keyword merge branch on a well-typed result
dict: the exact chain of dict updates performed by lines 212-215. -/
theorem mergeTrueBranch_spec (kvs : List (String × JVal)) (v : String)
    (n : Int) (e : String)
    (hcs : dictGet kvs "credibilityScore" = some (JVal.num n))
    (hex : dictGet kvs "explanation" = some (JVal.str e)) :
    mergeTrueBranch (JVal.obj kvs) v = .ok (.obj
      (dictSet (dictSet (dictSet (dictSet kvs
        "classification" (.str "real"))
        "credibilityScore" (.num (max n 80)))
        "explanation" (.str ("External fact-check confirms this claim is "
          ++ v ++ ". " ++ e)))
        "classificationDisplay" (.str ("FACT-CHECKED: " ++ strUpper v)))) := by
  have h1 : dictGet (dictSet kvs "classification" (JVal.str "real"))
      "credibilityScore" = some (JVal.num n) := by
    rw [dictGet_dictSet_ne _ _ _ _ (by decide)]; exact hcs
  have h2 : dictGet (dictSet (dictSet kvs "classification" (JVal.str "real"))
      "credibilityScore" (JVal.num (max n 80))) "explanation" =
      some (JVal.str e) := by
    rw [dictGet_dictSet_ne _ _ _ _ (by decide),
        dictGet_dictSet_ne _ _ _ _ (by decide)]
    exact hex
  simp [mergeTrueBranch, pySetItem, pyGetItem, pyMax, pyStrConcat, h1, h2]

/-- Computation of the residual merge branch on a well-typed result dict:
the exact chain of dict updates performed by lines 217-219 (the score is not
touched). -/
theorem mergeOtherBranch_spec (kvs : List (String × JVal)) (v : String)
    (e : String)
    (hex : dictGet kvs "explanation" = some (JVal.str e)) :
    mergeOtherBranch (JVal.obj kvs) v = .ok (.obj
      (dictSet (dictSet (dictSet kvs
        "classification" (.str "uncertain"))
        "explanation" (.str ("External fact-check verdict: " ++ v ++ ". " ++ e)))
        "classificationDisplay" (.str ("FACT-CHECKED: " ++ strUpper v)))) := by
  have h1 : dictGet (dictSet kvs "classification" (JVal.str "uncertain"))
      "explanation" = some (JVal.str e) := by
    rw [dictGet_dictSet_ne _ _ _ _ (by decide)]; exact hex
  simp [mergeOtherBranch, pySetItem, pyGetItem, pyStrConcat, h1]

/-- C2: a verdict whose lowercase form contains a false-keyword (`false`,
`debunked`, `misinformation`) makes the merge step force
`classification = "fake"`, set `credibilityScore` to `min(prior, 20)`,
prepend the confirming sentence citing the external verdict to the
explanation, and set `classificationDisplay` to `FACT-CHECKED: ` followed by
the upper-cased verdict. -/
theorem C2_false_verdict_merge (kvs : List (String × JVal)) (s : String)
    (n : Int) (e : String) (u p : JVal)
    (hkw : hasFalseKeyword (strLower s) = true)
    (hcs : dictGet kvs "credibilityScore" = some (JVal.num n))
    (hex : dictGet kvs "explanation" = some (JVal.str e)) :
    ∃ kvs2, mergeVerdict (JVal.obj kvs) ⟨JVal.str s, u, p⟩ =
        .ok (.obj kvs2) ∧
      dictGet kvs2 "classification" = some (.str "fake") ∧
      dictGet kvs2 "credibilityScore" = some (.num (min n 20)) ∧
      dictGet kvs2 "explanation" =
        some (.str ("External fact-check confirms this claim is "
          ++ s ++ ". " ++ e)) ∧
      dictGet kvs2 "classificationDisplay" =
        some (.str ("FACT-CHECKED: " ++ strUpper s)) := by
  refine ⟨dictSet (dictSet (dictSet (dictSet kvs
      "classification" (.str "fake"))
      "credibilityScore" (.num (min n 20)))
      "explanation" (.str ("External fact-check confirms this claim is "
        ++ s ++ ". " ++ e)))
      "classificationDisplay" (.str ("FACT-CHECKED: " ++ strUpper s)),
      ?_, ?_, ?_, ?_, ?_⟩
  · simp only [mergeVerdict, hkw, if_true]
    exact mergeFalseBranch_spec kvs s n e hcs hex
  · rw [dictGet_dictSet_ne _ _ _ _ (by decide),
        dictGet_dictSet_ne _ _ _ _ (by decide),
        dictGet_dictSet_ne _ _ _ _ (by decide), dictGet_dictSet_self]
  · rw [dictGet_dictSet_ne _ _ _ _ (by decide),
        dictGet_dictSet_ne _ _ _ _ (by decide), dictGet_dictSet_self]
  · rw [dictGet_dictSet_ne _ _ _ _ (by decide), dictGet_dictSet_self]
  · rw [dictGet_dictSet_self]

/-- Witness for C2: verdict `False` on a prior score of 70 yields
classification `fake`, score 20 = min(70, 20), the prepended explanation, and
display `FACT-CHECKED: FALSE`. -/
theorem C2_false_verdict_merge_witness :
    (∃ kvs2, mergeVerdict
        (JVal.obj [("credibilityScore", .num 70),
          ("classification", .str "real"), ("explanation", .str "E")])
        ⟨JVal.str "False", .null, .str "P"⟩ = .ok (.obj kvs2) ∧
      dictGet kvs2 "classification" = some (.str "fake") ∧
      dictGet kvs2 "credibilityScore" = some (.num (min 70 20)) ∧
      dictGet kvs2 "explanation" =
        some (.str ("External fact-check confirms this claim is "
          ++ "False" ++ ". " ++ "E")) ∧
      dictGet kvs2 "classificationDisplay" =
        some (.str ("FACT-CHECKED: " ++ strUpper "False"))) ∧
    "FACT-CHECKED: " ++ strUpper "False" = "FACT-CHECKED: FALSE" ∧
    min (70 : Int) 20 = 20 :=
  ⟨C2_false_verdict_merge
      [("credibilityScore", .num 70), ("classification", .str "real"),
       ("explanation", .str "E")]
      "False" 70 "E" .null (.str "P") (by decide) rfl rfl,
   by decide, by decide⟩

/-- C3: the three merge branches are checked case-insensitively in the fixed
order false-keywords, true-keywords, otherwise, and are mutually exclusive:
a verdict matching both keyword sets takes the false branch; a verdict
matching only a true-keyword forces `real` and `max(prior, 80)`; any other
verdict forces `uncertain` (score untouched). -/
theorem C3_merge_branch_order (kvs : List (String × JVal)) (s : String)
    (n : Int) (e : String) (u p : JVal)
    (hcs : dictGet kvs "credibilityScore" = some (JVal.num n))
    (hex : dictGet kvs "explanation" = some (JVal.str e)) :
    (hasFalseKeyword (strLower s) = true →
      ∃ kvs2, mergeVerdict (JVal.obj kvs) ⟨JVal.str s, u, p⟩ =
          .ok (.obj kvs2) ∧
        dictGet kvs2 "classification" = some (.str "fake")) ∧
    (hasFalseKeyword (strLower s) = false →
     hasTrueKeyword (strLower s) = true →
      ∃ kvs2, mergeVerdict (JVal.obj kvs) ⟨JVal.str s, u, p⟩ =
          .ok (.obj kvs2) ∧
        dictGet kvs2 "classification" = some (.str "real") ∧
        dictGet kvs2 "credibilityScore" = some (.num (max n 80))) ∧
    (hasFalseKeyword (strLower s) = false →
     hasTrueKeyword (strLower s) = false →
      ∃ kvs2, mergeVerdict (JVal.obj kvs) ⟨JVal.str s, u, p⟩ =
          .ok (.obj kvs2) ∧
        dictGet kvs2 "classification" = some (.str "uncertain") ∧
        dictGet kvs2 "credibilityScore" = dictGet kvs "credibilityScore") := by
  refine ⟨?_, ?_, ?_⟩
  · intro hf
    refine ⟨dictSet (dictSet (dictSet (dictSet kvs
        "classification" (.str "fake"))
        "credibilityScore" (.num (min n 20)))
        "explanation" (.str ("External fact-check confirms this claim is "
          ++ s ++ ". " ++ e)))
        "classificationDisplay" (.str ("FACT-CHECKED: " ++ strUpper s)),
        ?_, ?_⟩
    · simp only [mergeVerdict, hf, if_true]
      exact mergeFalseBranch_spec kvs s n e hcs hex
    · rw [dictGet_dictSet_ne _ _ _ _ (by decide),
          dictGet_dictSet_ne _ _ _ _ (by decide),
          dictGet_dictSet_ne _ _ _ _ (by decide), dictGet_dictSet_self]
  · intro hf ht
    refine ⟨dictSet (dictSet (dictSet (dictSet kvs
        "classification" (.str "real"))
        "credibilityScore" (.num (max n 80)))
        "explanation" (.str ("External fact-check confirms this claim is "
          ++ s ++ ". " ++ e)))
        "classificationDisplay" (.str ("FACT-CHECKED: " ++ strUpper s)),
        ?_, ?_, ?_⟩
    · simp only [mergeVerdict, hf, ht, if_true, Bool.false_eq_true,
        if_false]
      exact mergeTrueBranch_spec kvs s n e hcs hex
    · rw [dictGet_dictSet_ne _ _ _ _ (by decide),
          dictGet_dictSet_ne _ _ _ _ (by decide),
          dictGet_dictSet_ne _ _ _ _ (by decide), dictGet_dictSet_self]
    · rw [dictGet_dictSet_ne _ _ _ _ (by decide),
          dictGet_dictSet_ne _ _ _ _ (by decide), dictGet_dictSet_self]
  · intro hf ht
    refine ⟨dictSet (dictSet (dictSet kvs
        "classification" (.str "uncertain"))
        "explanation" (.str ("External fact-check verdict: "
          ++ s ++ ". " ++ e)))
        "classificationDisplay" (.str ("FACT-CHECKED: " ++ strUpper s)),
        ?_, ?_, ?_⟩
    · simp only [mergeVerdict, hf, ht, Bool.false_eq_true, if_false]
      exact mergeOtherBranch_spec kvs s e hex
    · rw [dictGet_dictSet_ne _ _ _ _ (by decide),
          dictGet_dictSet_ne _ _ _ _ (by decide), dictGet_dictSet_self]
    · rw [dictGet_dictSet_ne _ _ _ _ (by decide),
          dictGet_dictSet_ne _ _ _ _ (by decide),
          dictGet_dictSet_ne _ _ _ _ (by decide)]

/-- Witness for C3: verdict `False but True` matches both keyword sets and
resolves to `fake`; `Mostly True` matches only the true set and yields `real`
with score max(70, 80) = 80; `Unproven` matches neither and yields
`uncertain` with the score untouched. -/
theorem C3_merge_branch_order_witness :
    (∃ kvs2, mergeVerdict
        (JVal.obj [("credibilityScore", .num 70), ("explanation", .str "E")])
        ⟨JVal.str "False but True", .null, .null⟩ = .ok (.obj kvs2) ∧
      dictGet kvs2 "classification" = some (.str "fake")) ∧
    (∃ kvs2, mergeVerdict
        (JVal.obj [("credibilityScore", .num 70), ("explanation", .str "E")])
        ⟨JVal.str "Mostly True", .null, .null⟩ = .ok (.obj kvs2) ∧
      dictGet kvs2 "classification" = some (.str "real") ∧
      dictGet kvs2 "credibilityScore" = some (.num (max 70 80))) ∧
    (∃ kvs2, mergeVerdict
        (JVal.obj [("credibilityScore", .num 70), ("explanation", .str "E")])
        ⟨JVal.str "Unproven", .null, .null⟩ = .ok (.obj kvs2) ∧
      dictGet kvs2 "classification" = some (.str "uncertain") ∧
      dictGet kvs2 "credibilityScore" =
        dictGet [("credibilityScore", JVal.num 70), ("explanation", JVal.str "E")]
          "credibilityScore") :=
  ⟨(C3_merge_branch_order
      [("credibilityScore", .num 70), ("explanation", .str "E")]
      "False but True" 70 "E" .null .null rfl rfl).1 (by decide),
   (C3_merge_branch_order
      [("credibilityScore", .num 70), ("explanation", .str "E")]
      "Mostly True" 70 "E" .null .null rfl rfl).2.1 (by decide) (by decide),
   (C3_merge_branch_order
      [("credibilityScore", .num 70), ("explanation", .str "E")]
      "Unproven" 70 "E" .null .null rfl rfl).2.2 (by decide) (by decide)⟩

/-- On a result dict with a numeric score and a string explanation, the
merge step succeeds for every string verdict (all three branches only touch
those fields). -/
theorem mergeVerdict_ok_of_welltyped (kvs : List (String × JVal)) (n : Int)
    (e v : String) (fc : FactCheck) (hv : fc.verdict = JVal.str v)
    (hcs : dictGet kvs "credibilityScore" = some (JVal.num n))
    (hex : dictGet kvs "explanation" = some (JVal.str e)) :
    ∃ kvs2, mergeVerdict (JVal.obj kvs) fc = .ok (.obj kvs2) := by
  simp only [mergeVerdict, hv]
  by_cases hf : hasFalseKeyword (strLower v) = true
  · simp only [hf, if_true]
    exact ⟨_, mergeFalseBranch_spec kvs v n e hcs hex⟩
  · rw [Bool.not_eq_true] at hf
    simp only [hf, Bool.false_eq_true, if_false]
    by_cases ht : hasTrueKeyword (strLower v) = true
    · simp only [ht, if_true]
      exact ⟨_, mergeTrueBranch_spec kvs v n e hcs hex⟩
    · rw [Bool.not_eq_true] at ht
      simp only [ht, Bool.false_eq_true, if_false]
      exact ⟨_, mergeOtherBranch_spec kvs v e hex⟩

/-- When the assessor succeeded with a dict and no claim was extracted, the
pipeline answers 200 with exactly the assessor's dict and performs no
registry call. -/
theorem runPipeline_no_claim (env : Env) (kvs : List (String × JVal))
    (hA : contentAssessor env.jloads (env.analysisText.getD "") =
      Except.ok (JVal.obj kvs))
    (hC : extract_claim_with_gemini env.claimText = none) :
    runPipeline env =
      { status := 200, body := .obj kvs, modelCalled := true,
        claimModelCalled := true, registryCalled := false } := by
  simp [runPipeline, hA, hC, finishNoFactCheck, pySplat]

/-- When the assessor succeeded with a well-typed dict and every fact-check
result the registry interaction can produce carries a string verdict, the
request answers 200. -/
theorem runPipeline_status_200 (env : Env) (kvs : List (String × JVal))
    (n : Int) (e : String)
    (hA : contentAssessor env.jloads (env.analysisText.getD "") =
      Except.ok (JVal.obj kvs))
    (hcs : dictGet kvs "credibilityScore" = some (JVal.num n))
    (hex : dictGet kvs "explanation" = some (JVal.str e))
    (hfc : ∀ fc, query_fact_check_api env.factCheckKey env.registryResp =
      some fc → ∃ v, fc.verdict = JVal.str v) :
    (runPipeline env).status = 200 := by
  simp only [runPipeline, hA]
  rcases hE : extract_claim_with_gemini env.claimText with _ | c <;>
    simp only [hE]
  · simp [finishNoFactCheck, pySplat]
  · by_cases hc : c = ""
    · subst hc
      simp [finishNoFactCheck, pySplat]
    · have hcb : (c != "") = true := by simp [hc]
      simp only [hcb, if_true]
      rcases hQ : query_fact_check_api env.factCheckKey env.registryResp
          with _ | fc <;> simp only [hQ]
      · simp [finishNoFactCheck, pySplat]
      · obtain ⟨v, hv⟩ := hfc fc hQ
        obtain ⟨kvs2, hm⟩ := mergeVerdict_ok_of_welltyped kvs n e v fc hv
          hcs hex
        simp [hm, pySplat]

theorem candidateJson_none_of_aux_none (t : String)
    (h : firstIdxAux (fun c => c = '{') t.toList = none ∨
         lastIdxAux (fun c => c = '}') t.toList = none) :
    candidateJson t = none := by
  rcases h with h | h
  · simp only [candidateJson, pyFind, h]
    rw [if_neg]
    rintro ⟨h1, -, -⟩
    exact h1 rfl
  · simp only [candidateJson, pyRFind, h]
    rw [if_neg]
    rintro ⟨-, h2, -⟩
    exact h2 rfl

/-- C4 (counterexample): on a model response with no brace pair the
assessor's explanation is the could-not-parse message of line 160, not the
literal `No JSON string found` message of line 181 (that `elif` branch is
unreachable because `ai_result` was already set non-empty at line 157). -/
theorem C4_counterexample :
    contentAssessor jsonParse "The model returned prose with no JSON." =
      .ok (mkDefaultResult msgCouldNotParse discFailed) ∧
    msgCouldNotParse ≠ msgNoJsonFound :=
  ⟨rfl, by decide⟩

/-- C4 (amended): for every response text with no `[first-brace]`/`[last-brace]`
pair in the required order, the assessor's result equals the fixed default
(score 50, classification `uncertain`, all four sub-scores 50) whose
explanation is the fixed could-not-parse message — and that message is
distinct from the missing-keys and malformed-JSON messages, so the three
observable failure messages are pairwise distinct. -/
theorem C4_no_brace_pair_default (jl : String → Option JVal) (t : String)
    (h : '{' ∉ t.toList ∨ '}' ∉ t.toList ∨
      (∀ i j, firstIdxAux (fun c => c = '{') t.toList = some i →
        lastIdxAux (fun c => c = '}') t.toList = some j → j ≤ i)) :
    contentAssessor jl t = .ok (JVal.obj
      [("credibilityScore", .num 50), ("classification", .str "uncertain"),
       ("explanation", .str msgCouldNotParse), ("details", defaultDetails),
       ("disclaimer", .str discFailed)]) ∧
    msgCouldNotParse ≠ msgMissingKeys ∧ msgCouldNotParse ≠ msgMalformed ∧
    msgMissingKeys ≠ msgMalformed := by
  refine ⟨?_, by decide, by decide, by decide⟩
  have hc : candidateJson t = none := by
    rcases h with h | h | h
    · exact candidateJson_none_no_open t h
    · exact candidateJson_none_no_close t h
    · rcases hf : firstIdxAux (fun c => c = '{') t.toList with _ | i
      · exact candidateJson_none_of_aux_none t (Or.inl hf)
      · rcases hl : lastIdxAux (fun c => c = '}') t.toList with _ | j
        · exact candidateJson_none_of_aux_none t (Or.inr hl)
        · exact candidateJson_none_of_le t i j hf hl (h i j hf hl)
  exact contentAssessor_no_candidate jl t hc

/-- Witness for the amended C4 at a concrete brace-free response. -/
theorem C4_no_brace_pair_default_witness :
    '{' ∉ "plain text answer".toList ∧
    contentAssessor jsonParse "plain text answer" = .ok (JVal.obj
      [("credibilityScore", .num 50), ("classification", .str "uncertain"),
       ("explanation", .str msgCouldNotParse), ("details", defaultDetails),
       ("disclaimer", .str discFailed)]) :=
  ⟨by decide, (C4_no_brace_pair_default jsonParse "plain text answer"
      (Or.inl (by decide))).1⟩

/-- C5: when the brace-delimited candidate parses to a JSON object lacking at
least one of the four required keys, the assessor's result is replaced
wholesale by the fixed default whose explanation is the missing-keys
message. -/
theorem C5_missing_keys_default (jl : String → Option JVal) (t s : String)
    (kvs : List (String × JVal))
    (hc : candidateJson t = some s)
    (hp : jl s = some (JVal.obj kvs))
    (hk : requiredKeys.all (fun k => dictHasKey kvs k) = false) :
    contentAssessor jl t = .ok (JVal.obj
      [("credibilityScore", .num 50), ("classification", .str "uncertain"),
       ("explanation", .str msgMissingKeys), ("details", defaultDetails),
       ("disclaimer", .str discMissingKeys)]) :=
  contentAssessor_missing_keys jl t s kvs hc hp hk

/-- Witness for C5: the candidate `[empty object]` parses to the empty dict,
which lacks all four keys. -/
theorem C5_missing_keys_default_witness :
    jsonParse "\x7b\x7d" = some (JVal.obj []) ∧
    contentAssessor jsonParse "x\x7b\x7dy" = .ok (JVal.obj
      [("credibilityScore", .num 50), ("classification", .str "uncertain"),
       ("explanation", .str msgMissingKeys), ("details", defaultDetails),
       ("disclaimer", .str discMissingKeys)]) :=
  ⟨rfl, C5_missing_keys_default jsonParse "x\x7b\x7dy" "\x7b\x7d" []
    rfl rfl rfl⟩

/-- C6: when the brace-delimited candidate exists but fails to parse, the
assessor's result equals the fixed default with the malformed-JSON
explanation, and (second conjunct) this parse failure never surfaces as an
HTTP error: whenever the fact-check side produces at most string-verdict
results, the request still answers 200. -/
theorem C6_malformed_json_recovered :
    (∀ (jl : String → Option JVal) (t s : String),
        candidateJson t = some s → jl s = none →
        contentAssessor jl t = .ok (JVal.obj
          [("credibilityScore", .num 50),
           ("classification", .str "uncertain"),
           ("explanation", .str msgMalformed), ("details", defaultDetails),
           ("disclaimer", .str discMalformed)])) ∧
    (∀ (env : Env) (body : List (String × JVal)) (s : String),
        pyTruthy ((dictGet body "content").getD .null) = true →
        candidateJson (env.analysisText.getD "") = some s →
        env.jloads s = none →
        (∀ fc, query_fact_check_api env.factCheckKey env.registryResp =
          some fc → ∃ v, fc.verdict = JVal.str v) →
        (analyze_news_endpoint env body).status = 200) := by
  constructor
  · intro jl t s hc hp
    exact contentAssessor_parse_fail jl t s hc hp
  · intro env body s htr hc hp hfc
    have hA : contentAssessor env.jloads (env.analysisText.getD "") =
        Except.ok (JVal.obj
          [("credibilityScore", .num 50),
           ("classification", .str "uncertain"),
           ("explanation", .str msgMalformed), ("details", defaultDetails),
           ("disclaimer", .str discMalformed)]) :=
      contentAssessor_parse_fail env.jloads _ s hc hp
    have h200 := runPipeline_status_200 env _ 50 msgMalformed hA rfl rfl hfc
    simpa [analyze_news_endpoint, htr] using h200

/-- A concrete environment whose model response holds a trailing-comma
candidate. -/
def envC6 : Env :=
  { jloads := jsonParse,
    analysisText := some "pre \x7b\"a\": 1,\x7d post",
    claimText := none, factCheckKey := false, registryResp := .netFailure }

/-- Witness for C6: the trailing-comma candidate is rejected by the parser
and the request still answers 200. -/
theorem C6_malformed_json_recovered_witness :
    jsonParse "\x7b\"a\": 1,\x7d" = none ∧
    contentAssessor jsonParse "pre \x7b\"a\": 1,\x7d post" = .ok (JVal.obj
      [("credibilityScore", .num 50), ("classification", .str "uncertain"),
       ("explanation", .str msgMalformed), ("details", defaultDetails),
       ("disclaimer", .str discMalformed)]) ∧
    (analyze_news_endpoint envC6 [("content", JVal.str "x")]).status = 200 :=
  ⟨rfl,
   C6_malformed_json_recovered.1 jsonParse "pre \x7b\"a\": 1,\x7d post"
     "\x7b\"a\": 1,\x7d" rfl rfl,
   C6_malformed_json_recovered.2 envC6 [("content", JVal.str "x")]
     "\x7b\"a\": 1,\x7d" (by decide) rfl rfl (fun fc h => nomatch h)⟩

/-- C7: the candidate JSON payload is exactly the inclusive substring from
the first `[open-brace]` (index `i`) to the last `[close-brace]` (index `j`),
`j > i`, and when that candidate parses to an object containing all four
required keys the parsed object is returned as-is, unmodified. -/
theorem C7_brace_slice_and_passthrough :
    (∀ (t : String) (i j : Nat), i < j →
        t.toList.get? i = some '{' →
        (∀ k, k < i → t.toList.get? k ≠ some '{') →
        t.toList.get? j = some '}' →
        (∀ k, j < k → t.toList.get? k ≠ some '}') →
        candidateJson t =
          some (String.mk ((t.toList.drop i).take (j + 1 - i)))) ∧
    (∀ (jl : String → Option JVal) (t s : String)
        (kvs : List (String × JVal)),
        candidateJson t = some s → jl s = some (JVal.obj kvs) →
        requiredKeys.all (fun k => dictHasKey kvs k) = true →
        contentAssessor jl t = .ok (JVal.obj kvs)) := by
  constructor
  · intro t i j hij hi hmin hj hmax
    apply candidateJson_of_idx t i j hij
    · apply firstIdxAux_eq_some_of
      · exact ⟨'{', hi, by decide⟩
      · intro k hk c hc
        simp only [decide_eq_false_iff_not]
        intro hceq
        exact hmin k hk (hceq ▸ hc)
    · apply lastIdxAux_eq_some_of
      · exact ⟨'}', hj, by decide⟩
      · intro k hk c hc
        simp only [decide_eq_false_iff_not]
        intro hceq
        exact hmax k hk (hceq ▸ hc)
  · intro jl t s kvs hc hp hk
    exact contentAssessor_passthrough jl t s kvs hc hp hk

/-- Witness for C7: the slice of a tiny bracketed text, and the pass-through
of a complete four-key object embedded in prose. -/
theorem C7_brace_slice_and_passthrough_witness :
    candidateJson "a\x7bb\x7dc" =
      some (String.mk (("a\x7bb\x7dc".toList.drop 1).take 3)) ∧
    contentAssessor jsonParse
      "ok \x7b\"credibilityScore\": 1, \"classification\": \"a\", \"explanation\": \"b\", \"details\": 2\x7d end" =
      .ok (JVal.obj
        [("credibilityScore", .num 1), ("classification", .str "a"),
         ("explanation", .str "b"), ("details", .num 2)]) :=
  ⟨C7_brace_slice_and_passthrough.1 "a\x7bb\x7dc" 1 3 (by decide)
    (by decide)
    (fun k hk => by
      have h0 : k = 0 := by omega
      subst h0
      decide)
    (by decide)
    (fun k hk => by
      by_cases h5 : k < 5
      · have h4 : k = 4 := by omega
        subst h4
        decide
      · rw [List.get?_eq_none.mpr (by simpa using by omega : "a\x7bb\x7dc".toList.length ≤ k)]
        simp),
   C7_brace_slice_and_passthrough.2 jsonParse
     "ok \x7b\"credibilityScore\": 1, \"classification\": \"a\", \"explanation\": \"b\", \"details\": 2\x7d end"
     "\x7b\"credibilityScore\": 1, \"classification\": \"a\", \"explanation\": \"b\", \"details\": 2\x7d"
     [("credibilityScore", .num 1), ("classification", .str "a"),
      ("explanation", .str "b"), ("details", .num 2)]
     rfl rfl rfl⟩

/-- A well-formed model analysis response: all four required keys present. -/
def goodModelJson : String :=
  "\x7b\"credibilityScore\": 70, \"classification\": \"real\", \"explanation\": \"ok\", \"details\": 2\x7d"

/-- An environment whose registry response has the happy shape except that
the first review entry lacks `textualRating`. -/
def envBadRegistry : Env :=
  { jloads := jsonParse, analysisText := some goodModelJson,
    claimText := some "Some claim", factCheckKey := true,
    registryResp := .response (.obj [("claims", .arr
      [.obj [("claimReview", .arr [.obj []])]])]) }

/-- C8 (counterexample): a registry response of unexpected shape can surface
as an HTTP error after all.  With a first review entry lacking
`textualRating`, `query_fact_check_api` returns a fact-check whose verdict is
`None` (line 77 `.get` default), the merge step's `.lower()` at line 205
raises, and the request answers 500 — while the identical request whose
registry call fails outright answers 200.  So a registry outcome can turn the
response into a 500. -/
theorem C8_counterexample :
    (analyze_news_endpoint envBadRegistry
      [("content", JVal.str "x")]).status = 500 ∧
    (analyze_news_endpoint { envBadRegistry with registryResp := .netFailure }
      [("content", JVal.str "x")]).status = 200 :=
  ⟨rfl, rfl⟩

/-- C8 (amended): every registry interaction for which the lookup helper
yields no fact-check result (network failure, missing key, no claims, no
review entries, off-shape data) is recovered locally and never surfaces as an
HTTP error: the response is identical to the one produced when the registry
call fails outright — and a failing registry call indeed yields no
fact-check result. -/
theorem C8_no_result_recovered (env : Env) (body : List (String × JVal))
    (h : query_fact_check_api env.factCheckKey env.registryResp = none) :
    analyze_news_endpoint env body =
      analyze_news_endpoint { env with registryResp := .netFailure } body ∧
    query_fact_check_api env.factCheckKey RegistryOutcome.netFailure =
      none := by
  have hnet : query_fact_check_api env.factCheckKey
      RegistryOutcome.netFailure = none := by
    cases env.factCheckKey <;> simp [query_fact_check_api]
  refine ⟨?_, hnet⟩
  simp only [analyze_news_endpoint]
  by_cases htr : pyTruthy ((dictGet body "content").getD .null) = true
  · rw [if_pos htr, if_pos htr]
    simp only [runPipeline]
    rw [h, hnet]
  · rw [if_neg htr, if_neg htr]

/-- An environment whose registry response contains no `claims` entry. -/
def envNoClaims : Env :=
  { jloads := jsonParse, analysisText := some goodModelJson,
    claimText := some "Some claim", factCheckKey := true,
    registryResp := .response (.obj [("foo", .num 1)]) }

/-- Witness for the amended C8: a no-claims registry response leaves the
response identical to the network-failure one. -/
theorem C8_no_result_recovered_witness :
    query_fact_check_api envNoClaims.factCheckKey envNoClaims.registryResp =
      none ∧
    analyze_news_endpoint envNoClaims [("content", JVal.str "x")] =
      analyze_news_endpoint { envNoClaims with registryResp := .netFailure }
        [("content", JVal.str "x")] :=
  ⟨rfl,
   (C8_no_result_recovered envNoClaims [("content", JVal.str "x")] rfl).1⟩

/-- C9: when claim extraction returns exactly the sentinel phrase after
stripping, it is treated as no claim, no registry call is made, and the 200
response body is exactly the assessor's dict — every assessor field
retained, nothing added (in particular none of the three fact-check
fields). -/
theorem C9_sentinel_skips_fact_check (env : Env)
    (body : List (String × JVal)) (t : String)
    (kvs : List (String × JVal))
    (htr : pyTruthy ((dictGet body "content").getD .null) = true)
    (hct : env.claimText = some t)
    (hst : pyStrip t = "No specific claim identified")
    (hA : contentAssessor env.jloads (env.analysisText.getD "") =
      Except.ok (JVal.obj kvs)) :
    extract_claim_with_gemini env.claimText = none ∧
    analyze_news_endpoint env body =
      { status := 200, body := .obj kvs, modelCalled := true,
        claimModelCalled := true, registryCalled := false } := by
  have hE : extract_claim_with_gemini env.claimText = none := by
    simp [extract_claim_with_gemini, hct, hst]
  refine ⟨hE, ?_⟩
  have hrun := runPipeline_no_claim env kvs hA hE
  simp only [analyze_news_endpoint]
  rw [if_pos htr]
  exact hrun

/-- An environment whose extraction response is the padded sentinel. -/
def envC9 : Env :=
  { jloads := jsonParse, analysisText := some goodModelJson,
    claimText := some "  No specific claim identified  ",
    factCheckKey := true, registryResp := .netFailure }

/-- Witness for C9 at a concrete padded sentinel and a concrete four-key
assessor result. -/
theorem C9_sentinel_skips_fact_check_witness :
    pyStrip "  No specific claim identified  " =
      "No specific claim identified" ∧
    analyze_news_endpoint envC9 [("content", JVal.str "x")] =
      { status := 200, body := .obj
          [("credibilityScore", .num 70), ("classification", .str "real"),
           ("explanation", .str "ok"), ("details", .num 2)],
        modelCalled := true, claimModelCalled := true,
        registryCalled := false } :=
  ⟨rfl,
   (C9_sentinel_skips_fact_check envC9 [("content", JVal.str "x")]
     "  No specific claim identified  "
     [("credibilityScore", .num 70), ("classification", .str "real"),
      ("explanation", .str "ok"), ("details", .num 2)]
     (by decide) rfl rfl rfl).2⟩

/-- C10: the rejection test is Python truthiness of the `content` value, not
a non-empty-string test: a present but falsy `content` (empty string, `0`,
`false`, `null`) — like a missing one — yields the 400 rejection, while any
truthy value (a whitespace-only string, any truthy non-string) proceeds to
the analysis pipeline. -/
theorem C10_truthiness_gate (env : Env) (body : List (String × JVal)) :
    ((dictGet body "content" = some (JVal.str "") ∨
      dictGet body "content" = some (JVal.num 0) ∨
      dictGet body "content" = some (JVal.bool false) ∨
      dictGet body "content" = some JVal.null ∨
      dictGet body "content" = none) →
        analyze_news_endpoint env body = badRequest400) ∧
    (∀ v, dictGet body "content" = some v → pyTruthy v = true →
        analyze_news_endpoint env body = runPipeline env) := by
  constructor
  · intro h
    unfold analyze_news_endpoint
    rcases h with h | h | h | h | h <;> rw [h] <;> rfl
  · intro v hv htr
    unfold analyze_news_endpoint
    rw [hv]
    simp [Option.getD, htr]

/-- Witness for C10: a whitespace-only string and the number `5` pass the
gate, the number `0` is rejected. -/
theorem C10_truthiness_gate_witness :
    analyze_news_endpoint envA [("content", JVal.str " ")] = runPipeline envA ∧
    analyze_news_endpoint envA [("content", JVal.num 5)] = runPipeline envA ∧
    analyze_news_endpoint envA [("content", JVal.num 0)] = badRequest400 :=
  ⟨(C10_truthiness_gate envA [("content", JVal.str " ")]).2
      (JVal.str " ") rfl (by decide),
   (C10_truthiness_gate envA [("content", JVal.num 5)]).2
      (JVal.num 5) rfl (by decide),
   (C10_truthiness_gate envA [("content", JVal.num 0)]).1
      (Or.inr (Or.inl rfl))⟩

end FND
